import Mathlib

/-
  Verification of the fever-triage backend (src/fever-backend/main.py).

  The development shallowly embeds the provider-orchestration and
  safety-override engine: the pydantic data model, the rule-based
  classifier `get_fallback_response`, the safety overrides inside the
  `/api/triage` endpoint, the response extractor, the provider fallback
  orchestration of `get_ai_triage_assessment`, the Gemini retry loop of
  `call_gemini_api`, and the `/api/analyze-photo` endpoint.

  Python floats are modelled as `Rat` (every float is an exact rational,
  and every comparison used by the code is exact on the values involved).
  Exceptions are modelled with `Except` over an explicit error type.
  `json.loads` is an external library call; its result is modelled as an
  oracle `String → Option payload` supplied to the pipeline, while the
  code's own string manipulation (fence stripping) is embedded directly.
-/

namespace FeverTriage

/-! ## Data model (pydantic models in main.py) -/

/-- `PatientData` (main.py lines 118-129). -/
structure PatientData where
  temperature : Rat
  duration_hours : Int
  symptoms : List String
  age : Int
  medical_history : Option String
deriving DecidableEq

/-- The pydantic field bounds on `PatientData`: temperature in [95,110],
duration in [1,720], age in [0,120]. -/
def PatientData.valid (p : PatientData) : Prop :=
  95 ≤ p.temperature ∧ p.temperature ≤ 110 ∧
  1 ≤ p.duration_hours ∧ p.duration_hours ≤ 720 ∧
  0 ≤ p.age ∧ p.age ≤ 120

instance (p : PatientData) : Decidable p.valid := by
  unfold PatientData.valid; infer_instance

/-- `TriageResponse` (main.py lines 131-137).  `severity` is a plain
string in the source (no enum validation); `confidence_score` carries the
pydantic range constraint [0,1], enforced at construction sites. -/
structure TriageResponse where
  severity : String
  diagnosis_suggestions : List String
  recommended_action : String
  clinical_explanation : String
  red_flags : List String
  confidence_score : Rat
deriving DecidableEq

/-! ## Python string primitives, over the underlying character list
(so that concrete instances evaluate by kernel reduction) -/

/-- Python's `str.lower()` (ASCII-faithful). -/
def py_lower (s : String) : String :=
  String.mk (s.data.map Char.toLower)

/-- Whether the first list leads (starts) the second. -/
def chars_lead : List Char → List Char → Bool
  | [], _ => true
  | _ :: _, [] => false
  | a :: as, b :: bs => a == b && chars_lead as bs

/-- Splitting worker: scan for each non-overlapping occurrence of the
separator; `fuel` dominates the scan length. -/
def split_aux (sep : List Char) : Nat → List Char → List Char → List (List Char)
  | 0, cur, xs => [cur.reverse ++ xs]
  | fuel + 1, cur, xs =>
    match xs with
    | [] => [cur.reverse]
    | c :: rest =>
      if chars_lead sep xs then
        cur.reverse :: split_aux sep fuel [] (xs.drop sep.length)
      else
        split_aux sep fuel (c :: cur) rest

/-- Python's `s.split(sep)` for a non-empty separator. -/
def py_split (s sep : String) : List String :=
  (split_aux sep.data (s.data.length + 1) [] s.data).map String.mk

/-- Python's `pat in s` substring test: splitting yields more than one
part exactly when the pattern occurs. -/
def py_contains (s pat : String) : Bool :=
  (py_split s pat).length != 1

/-- Whitespace as stripped by Python's `str.strip()`. -/
def is_space_char (c : Char) : Bool :=
  c == ' ' || c == '\t' || c == '\n' || c == '\r'

/-- Python's `str.strip()`. -/
def py_strip (s : String) : String :=
  String.mk (((s.data.dropWhile is_space_char).reverse.dropWhile is_space_char).reverse)

/-- Python's `s.startswith(pat)`. -/
def py_startswith (s pat : String) : Bool :=
  chars_lead pat.data s.data

/-! ## Rule-based classifier: `get_fallback_response` (main.py 706-749) -/

/-- The four critical symptoms tested by the rule-based classifier
(main.py line 722). -/
def critical_symptoms_rule : List String :=
  ["confusion", "stiff neck", "difficulty breathing", "chest pain"]

/-- The f-string explanation built by `get_fallback_response`
(main.py line 746); numeric rendering is Lean's. -/
def fallback_explanation (p : PatientData) : String :=
  "Rule-based assessment: Temperature " ++ toString p.temperature ++
  "°F, " ++ toString p.symptoms.length ++
  " symptoms. This is a simplified assessment - please consult healthcare provider for proper evaluation."

/-- `get_fallback_response` (main.py 706-749): the deterministic
rule-based triage used when no provider output is usable. -/
def get_fallback_response (p : PatientData) : TriageResponse :=
  let temp := p.temperature
  let age := p.age
  let symptoms := p.symptoms.map py_lower
  if (critical_symptoms_rule.any fun s => symptoms.contains s) ∨ 104 ≤ temp then
    { severity := "CRITICAL",
      diagnosis_suggestions := ["Possible serious infection", "Requires immediate evaluation"],
      recommended_action := "Seek immediate emergency care - call 911",
      clinical_explanation := fallback_explanation p,
      red_flags := ["High fever", "Concerning symptoms present"],
      confidence_score := mkRat 6 10 }
  else if 103 ≤ temp ∨ 65 < age ∨ symptoms.contains "rapid heartbeat" then
    { severity := "HIGH",
      diagnosis_suggestions := ["Possible bacterial infection", "Flu", "Pneumonia"],
      recommended_action := "See healthcare provider today",
      clinical_explanation := fallback_explanation p,
      red_flags := ["High fever", "Risk factors present"],
      confidence_score := mkRat 6 10 }
  else if 101 ≤ temp ∨ 3 < symptoms.length then
    { severity := "MEDIUM",
      diagnosis_suggestions := ["Viral infection", "Flu", "Upper respiratory infection"],
      recommended_action := "See healthcare provider within 24-48 hours if no improvement",
      clinical_explanation := fallback_explanation p,
      red_flags := [],
      confidence_score := mkRat 6 10 }
  else
    { severity := "LOW",
      diagnosis_suggestions := ["Viral infection", "Common cold"],
      recommended_action := "Monitor symptoms and rest at home",
      clinical_explanation := fallback_explanation p,
      red_flags := [],
      confidence_score := mkRat 6 10 }

/-! ## Safety overrides inside `triage_assessment` (main.py 1084-1095) -/

/-- The five critical symptoms tested by the endpoint's safety check
(main.py line 1091). -/
def critical_symptoms_check : List String :=
  ["confusion", "stiff neck", "difficulty breathing", "chest pain", "rapid heartbeat"]

/-- The symptom test of main.py line 1092: some keyword, lowercased,
is a member of the lowercased symptom list. -/
def has_critical_symptom (p : PatientData) : Bool :=
  critical_symptoms_check.any fun k => (p.symptoms.map py_lower).contains (py_lower k)

/-- The high-fever override (main.py 1085-1088). -/
def apply_fever_override (p : PatientData) (a : TriageResponse) : TriageResponse :=
  if 104 ≤ p.temperature ∧ a.severity ∉ (["HIGH", "CRITICAL"] : List String) then
    { a with severity := "CRITICAL",
             red_flags := a.red_flags ++ ["Dangerously high fever (≥104°F)"] }
  else a

/-- The critical-symptom override (main.py 1090-1095). -/
def apply_symptom_override (p : PatientData) (a : TriageResponse) : TriageResponse :=
  if has_critical_symptom p then
    if a.severity = "LOW" then { a with severity := "MEDIUM" } else a
  else a

/-- The full safety-override stage: fever rule then symptom rule, in the
order the endpoint applies them. -/
def safety_overrides (p : PatientData) (a : TriageResponse) : TriageResponse :=
  apply_symptom_override p (apply_fever_override p a)

/-- Rank of the four severity tiers in urgency order; `none` for a
string that is not one of the four tiers. -/
def severity_rank (s : String) : Option Nat :=
  if s = "LOW" then some 0
  else if s = "MEDIUM" then some 1
  else if s = "HIGH" then some 2
  else if s = "CRITICAL" then some 3
  else none

/-! ## Spec-side decision table (spec.md §4.5), for the refinement claim -/

/-- Severity assignment read off the spec's decision table, written from
the spec's words: rule 1 CRITICAL, rule 2 HIGH, rule 3 MEDIUM, else LOW,
with case-insensitive whole-symptom matching. -/
def spec_rule_severity (p : PatientData) : String :=
  if 104 ≤ p.temperature ∨ (p.symptoms.any fun s => critical_symptoms_rule.contains (py_lower s)) then
    "CRITICAL"
  else if 103 ≤ p.temperature ∨ 65 < p.age ∨ (p.symptoms.any fun s => py_lower s = "rapid heartbeat") then
    "HIGH"
  else if 101 ≤ p.temperature ∨ 3 < p.symptoms.length then
    "MEDIUM"
  else
    "LOW"

/-! ## Error and provider-call model -/

/-- The exceptions the pipeline can raise, including FastAPI's
HTTPException (which `triage_assessment` re-raises, main.py 1099-1100). -/
inductive PyExn where
  | notConfigured
  | rateLimitExhausted
  | apiError (code : Nat)
  | noCandidates
  | valueError
  | validationError
  | httpException (code : Nat) (detail : String)
deriving DecidableEq

def PyExn.isHTTP : PyExn → Bool
  | .httpException _ _ => true
  | _ => false

/-- The module-level provider configuration (main.py 87-101): the
configured primary provider name and truthiness of each credential. -/
structure Config where
  ai_provider : String
  gemini_key : Bool
  huggingface_key : Bool
  openai_client : Bool
deriving DecidableEq

/-- Outcome of one provider call: generated text, or a raised exception. -/
inductive CallResult where
  | ok (text : String)
  | exn (e : PyExn)
deriving DecidableEq

/-- One request's provider environment: the outcome each provider's call
would produce (each provider is called at most once per request). -/
abbrev Behavior := String → CallResult

/-! ## Provider fallback orchestration: `get_ai_triage_assessment`
(main.py 751-845) -/

/-- The fixed fallback provider list (main.py line 783). -/
def fallback_providers : List String :=
  ["gemini", "ollama", "huggingface", "openai"]

/-- Whether a provider is configured, per the guards of main.py 764-775
and 792-802 (ollama needs no credential). -/
def is_configured (cfg : Config) (p : String) : Bool :=
  if p = "gemini" then cfg.gemini_key
  else if p = "ollama" then true
  else if p = "huggingface" then cfg.huggingface_key
  else if p = "openai" then cfg.openai_client
  else false

/-- The primary-provider dispatch chain (main.py 764-777), with the list
of providers actually attempted. -/
def try_primary (cfg : Config) (beh : Behavior) : CallResult × List String :=
  if cfg.ai_provider = "gemini" ∧ cfg.gemini_key = true then (beh "gemini", ["gemini"])
  else if cfg.ai_provider = "ollama" then (beh "ollama", ["ollama"])
  else if cfg.ai_provider = "huggingface" ∧ cfg.huggingface_key = true then
    (beh "huggingface", ["huggingface"])
  else if cfg.ai_provider = "openai" ∧ cfg.openai_client = true then (beh "openai", ["openai"])
  else (.exn .notConfigured, [])

/-- The guarded call made for one provider inside the fallback loop
(main.py 792-802): `none` when the provider is skipped as unconfigured. -/
def provider_call (cfg : Config) (beh : Behavior) (p : String) : Option CallResult :=
  if p = "gemini" then (if cfg.gemini_key then some (beh "gemini") else none)
  else if p = "ollama" then some (beh "ollama")
  else if p = "huggingface" then (if cfg.huggingface_key then some (beh "huggingface") else none)
  else if p = "openai" then (if cfg.openai_client then some (beh "openai") else none)
  else none

/-- The fallback loop (main.py 785-807): skip the primary, skip
unconfigured providers, stop at the first success, swallow failures.
Returns the response content (if any) and the attempted providers. -/
def fallback_loop (cfg : Config) (beh : Behavior) : List String → Option String × List String
  | [] => (none, [])
  | p :: rest =>
    if p = cfg.ai_provider then fallback_loop cfg beh rest
    else
      match provider_call cfg beh p with
      | some (.ok t) => (some t, [p])
      | some (.exn _) =>
        let r := fallback_loop cfg beh rest
        (r.1, p :: r.2)
      | none => fallback_loop cfg beh rest

/-- The whole orchestration of main.py 760-807: primary attempt, then on
any exception the fallback loop.  Yields `response_content` and the
ordered list of attempted providers. -/
def orchestrate (cfg : Config) (beh : Behavior) : Option String × List String :=
  match try_primary cfg beh with
  | (.ok t, tr) => (some t, tr)
  | (.exn _, tr) =>
    let r := fallback_loop cfg beh fallback_providers
    (r.1, tr ++ r.2)

/-- Spec-side provider order (spec.md §4.3): the configured primary
first, then the remaining configured providers in the fixed canonical
order. -/
def provider_order (cfg : Config) : List String :=
  (if cfg.ai_provider ∈ fallback_providers ∧ is_configured cfg cfg.ai_provider = true then
    [cfg.ai_provider]
  else []) ++
  fallback_providers.filter fun q => q ≠ cfg.ai_provider ∧ is_configured cfg q = true

/-- Spec-side sequential first-success scan over an ordered provider
list, recording the attempts made. -/
def first_success (beh : Behavior) : List String → Option String × List String
  | [] => (none, [])
  | p :: rest =>
    match beh p with
    | .ok t => (some t, [p])
    | .exn _ =>
      let r := first_success beh rest
      (r.1, p :: r.2)

/-! ## Response extraction (main.py 815-837) -/

/-- Result of Python's `float(...)` on a decoded confidence value:
either an exact rational, or a `ValueError`. -/
inductive ConfVal where
  | coercible (q : Rat)
  | notCoercible
deriving DecidableEq

/-- The decoded JSON payload as accessed by the extractor: each field
either present (with the type the code expects) or absent. -/
structure AIPayload where
  severity : Option String
  diagnosis_suggestions : Option (List String)
  recommended_action : Option String
  clinical_explanation : Option String
  red_flags : Option (List String)
  confidence_score : Option ConfVal
deriving DecidableEq

/-- `float(ai_assessment.get("confidence_score", 0.7))` (main.py 836). -/
def float_of_conf : Option ConfVal → Except PyExn Rat
  | none => .ok (mkRat 7 10)
  | some (.coercible q) => .ok q
  | some .notCoercible => .error .valueError

/-- Building the `TriageResponse` from the decoded payload
(main.py 830-837), including pydantic's [0,1] gate on
`confidence_score`; a `ValueError` or `ValidationError` propagates to
the catch-all of main.py 842. -/
def extract_triage (ai : AIPayload) : Except PyExn TriageResponse :=
  match float_of_conf ai.confidence_score with
  | .error e => .error e
  | .ok q =>
    if 0 ≤ q ∧ q ≤ 1 then
      .ok { severity := ai.severity.getD "MEDIUM",
            diagnosis_suggestions := ai.diagnosis_suggestions.getD ["Unable to determine"],
            recommended_action := ai.recommended_action.getD "Consult healthcare provider",
            clinical_explanation := ai.clinical_explanation.getD "Assessment completed",
            red_flags := ai.red_flags.getD [],
            confidence_score := q }
    else .error .validationError

/-- Python's `pat in s` substring test, via `splitOn`. -/
def contains_substr (s pat : String) : Bool :=
  py_contains s pat

/-- The fence-stripping of main.py 818-822: strip whitespace, then take
the text between the first "```json" (or "```") marker and the next
"```". -/
def clean_response (s : String) : String :=
  let t := py_strip s
  if contains_substr t "```json" then
    (py_split ((py_split t "```json").getD 1 "") "```").getD 0 ""
  else if contains_substr t "```" then
    (py_split ((py_split t "```").getD 1 "") "```").getD 0 ""
  else t

/-- Oracle for `json.loads` on cleaned triage text: `none` models
`json.JSONDecodeError`. -/
abbrev Decoder := String → Option AIPayload

/-- The body of `get_ai_triage_assessment` (main.py 753-840) up to its
catch-all: orchestrate providers; on no (or falsy, i.e. empty) content or
a JSON decode error, return the rule-based fallback; otherwise extract,
which may raise. -/
def get_ai_triage_body (cfg : Config) (beh : Behavior) (decode : Decoder)
    (p : PatientData) : Except PyExn TriageResponse :=
  match (orchestrate cfg beh).1 with
  | none => .ok (get_fallback_response p)
  | some text =>
    if text = "" then .ok (get_fallback_response p)
    else
      match decode (clean_response text) with
      | none => .ok (get_fallback_response p)
      | some ai => extract_triage ai

/-- `get_ai_triage_assessment` with its catch-all (main.py 842-845):
any exception becomes the rule-based fallback. -/
def get_ai_triage_assessment (cfg : Config) (beh : Behavior) (decode : Decoder)
    (p : PatientData) : TriageResponse :=
  match get_ai_triage_body cfg beh decode p with
  | .ok r => r
  | .error _ => get_fallback_response p

/-- The body of the `/api/triage` endpoint (main.py 1076-1097):
assessment, then the safety overrides.  Its only exit is a return. -/
def triage_body (cfg : Config) (beh : Behavior) (decode : Decoder)
    (p : PatientData) : Except PyExn TriageResponse :=
  .ok (safety_overrides p (get_ai_triage_assessment cfg beh decode p))

/-- The `/api/triage` endpoint (main.py 1067-1104): re-raise an
HTTPException, convert any other exception to the rule-based fallback. -/
def triage_assessment (cfg : Config) (beh : Behavior) (decode : Decoder)
    (p : PatientData) : Except PyExn TriageResponse :=
  match triage_body cfg beh decode p with
  | .ok a => .ok a
  | .error e => if e.isHTTP then .error e else .ok (get_fallback_response p)

/-! ## Gemini retry loop: `call_gemini_api` (main.py 605-631) -/

/-- HTTP outcome of one Gemini attempt: 200 with text, 200 without
candidates, 429, or another status. -/
inductive GeminiAttempt where
  | ok (text : String)
  | okNoCandidates
  | rateLimited
  | httpError (code : Nat)
deriving DecidableEq

/-- Result of the retry loop: the outcome, the number of attempts made,
and the total seconds slept in backoff. -/
structure RetryTrace where
  result : Except PyExn String
  attempts : Nat
  backoff_wait : Nat

/-- `wait_time = (2 ** attempt) + 1` (main.py line 620). -/
def wait_time (attempt : Nat) : Nat := 2 ^ attempt + 1

/-- The `for attempt in range(3)` loop of main.py 607-628: return on
200, sleep and continue on 429, raise immediately on anything else;
after the range is exhausted, raise (main.py 631). -/
def gemini_retry_loop (beh : Nat → GeminiAttempt) : List Nat → Nat → RetryTrace
  | [], acc => ⟨.error .rateLimitExhausted, 3, acc⟩
  | attempt :: rest, acc =>
    match beh attempt with
    | .ok t => ⟨.ok t, attempt + 1, acc⟩
    | .okNoCandidates => ⟨.error .noCandidates, attempt + 1, acc⟩
    | .httpError c => ⟨.error (.apiError c), attempt + 1, acc⟩
    | .rateLimited => gemini_retry_loop beh rest (acc + wait_time attempt)

/-- `call_gemini_api`'s retry behaviour over its three attempts. -/
def call_gemini_retry (beh : Nat → GeminiAttempt) : RetryTrace :=
  gemini_retry_loop beh [0, 1, 2] 0

/-! ## Photo analysis: `analyze_photo` (main.py 1173-1300) -/

/-- `FacialAnalysisResponse` (main.py 147-152). -/
structure FacialAnalysisResponse where
  fatigue_indicators : List String
  fever_indicators : List String
  overall_health_appearance : String
  confidence_score : Rat
  recommendations : List String
deriving DecidableEq

/-- Decoded JSON payload as accessed by the photo extractor. -/
structure VisionPayload where
  fatigue_indicators : Option (List String)
  fever_indicators : Option (List String)
  overall_health_appearance : Option String
  confidence_score : Option ConfVal
  recommendations : Option (List String)
deriving DecidableEq

/-- The uploaded file as the endpoint inspects it: declared content
type, byte size, and whether PIL can process it. -/
structure PhotoUpload where
  content_type : Option String
  size : Nat
  valid_image : Bool
deriving DecidableEq

/-- The fixed payload returned when the vision model's output fails JSON
parsing (main.py 1288-1294). -/
def photo_fallback_payload : FacialAnalysisResponse :=
  { fatigue_indicators := ["Unable to analyze - please ensure good lighting and clear face view"],
    fever_indicators := [],
    overall_health_appearance :=
      "Photo analysis could not be completed. Please ensure good lighting and a clear view of your face.",
    confidence_score := 0,
    recommendations := ["Retake photo with better lighting", "Consult healthcare provider for assessment"] }

/-- Building `FacialAnalysisResponse` from the decoded payload
(main.py 1274-1280), with `float(...get("confidence_score", 0.5))` and
pydantic's [0,1] gate. -/
def extract_facial (v : VisionPayload) : Except PyExn FacialAnalysisResponse :=
  match (match v.confidence_score with
         | none => Except.ok (mkRat 5 10)
         | some (.coercible q) => .ok q
         | some .notCoercible => .error PyExn.valueError) with
  | .error e => .error e
  | .ok q =>
    if 0 ≤ q ∧ q ≤ 1 then
      .ok { fatigue_indicators := v.fatigue_indicators.getD [],
            fever_indicators := v.fever_indicators.getD [],
            overall_health_appearance :=
              v.overall_health_appearance.getD "Unable to assess from photo",
            confidence_score := q,
            recommendations :=
              v.recommendations.getD ["Consult healthcare provider for professional assessment"] }
    else .error .validationError

/-- Whether the upload passes the content-type guard of main.py 1186. -/
def photo_is_image (photo : PhotoUpload) : Bool :=
  match photo.content_type with
  | some t => py_startswith t "image/"
  | none => false

/-- The `/api/analyze-photo` endpoint (main.py 1173-1300): credential,
content-type, size and image-validity guards raise HTTP errors; only a
JSON decode failure of the model output yields the fallback payload; any
other failure becomes HTTP 500 via the catch-all of main.py 1298-1300. -/
def analyze_photo (cfg : Config) (photo : PhotoUpload) (vision : CallResult)
    (decode : String → Option VisionPayload) : Except PyExn FacialAnalysisResponse :=
  if cfg.gemini_key = false then
    .error (.httpException 500 "Photo analysis service not configured")
  else if photo_is_image photo = false then
    .error (.httpException 400 "File must be an image")
  else if 10 * 1024 * 1024 < photo.size then
    .error (.httpException 400 "File too large (max 10MB)")
  else if photo.valid_image = false then
    .error (.httpException 400 "Invalid image file")
  else
    match vision with
    | .exn _ => .error (.httpException 500 "Photo analysis failed")
    | .ok text =>
      match decode (clean_response text) with
      | none => .ok photo_fallback_payload
      | some v =>
        match extract_facial v with
        | .ok r => .ok r
        | .error _ => .error (.httpException 500 "Photo analysis failed")

/-! ## Concrete instances used by witnesses and counterexamples -/

/-- Severity of an extraction result, `none` on an exception. -/
def severity_of : Except PyExn TriageResponse → Option String
  | .ok r => some r.severity
  | .error _ => none

/-- The spec's §8 scenario patient: temperature 103.0, age 20, three
symptoms. -/
def p3_scenario : PatientData :=
  { temperature := 103, duration_hours := 24,
    symptoms := ["headache", "body aches", "chills"], age := 20, medical_history := none }

/-- A patient at exactly the 104.0°F threshold. -/
def patient_hot : PatientData :=
  { temperature := 104, duration_hours := 12, symptoms := ["fatigue"], age := 30,
    medical_history := none }

/-- A mild, fully valid patient. -/
def p_mild : PatientData :=
  { temperature := 99, duration_hours := 5, symptoms := ["cough"], age := 30,
    medical_history := none }

/-- A patient whose symptom contains a critical keyword only as a
proper substring. -/
def p_substring : PatientData :=
  { temperature := mkRat 995 10, duration_hours := 12, symptoms := ["severe chest pain"], age := 30,
    medical_history := none }

/-- A patient whose symptom equals a critical keyword up to case. -/
def p_exact : PatientData :=
  { temperature := 95, duration_hours := 12, symptoms := ["Chest Pain"], age := 30,
    medical_history := none }

/-- A LOW assessment, as a provider could return it. -/
def a_low : TriageResponse :=
  { severity := "LOW", diagnosis_suggestions := ["Viral infection"],
    recommended_action := "Rest", clinical_explanation := "Mild case",
    red_flags := [], confidence_score := mkRat 5 10 }

/-- A MEDIUM assessment, as a provider could return it. -/
def a_med : TriageResponse :=
  { severity := "MEDIUM", diagnosis_suggestions := ["Flu"],
    recommended_action := "See a provider", clinical_explanation := "Moderate case",
    red_flags := ["persistent fever"], confidence_score := mkRat 8 10 }

/-- Configuration with Gemini as primary and only Gemini credentials. -/
def cfg_gemini : Config :=
  { ai_provider := "gemini", gemini_key := true, huggingface_key := false,
    openai_client := false }

/-- Configuration with no Gemini credential. -/
def cfg_nokey : Config :=
  { ai_provider := "gemini", gemini_key := false, huggingface_key := false,
    openai_client := false }

/-- Raw provider text reporting severity HIGH (a bare JSON object). -/
def ai_text_high : String :=
  "\x7b\"severity\": \"HIGH\", \"confidence_score\": 0.9\x7d"

/-- The decoded form of `ai_text_high`. -/
def payload_high : AIPayload :=
  { severity := some "HIGH", diagnosis_suggestions := none, recommended_action := none,
    clinical_explanation := none, red_flags := none,
    confidence_score := some (.coercible (mkRat 9 10)) }

/-- A decode oracle for `ai_text_high`, as `json.loads` would act. -/
def decode_high : Decoder :=
  fun s => if s = ai_text_high then some payload_high else none

/-- Provider environment: Gemini answers with `ai_text_high`. -/
def beh_high : Behavior :=
  fun pname => if pname = "gemini" then .ok ai_text_high else .exn (.apiError 500)

/-- Provider environment: the primary fails with an unreachable-style
error, Ollama (provider B) succeeds. -/
def beh_ab : Behavior :=
  fun pname => if pname = "ollama" then .ok "provider B output" else .exn (.apiError 503)

/-- All providers fail with transport errors. -/
def beh_fail_unreach : Behavior := fun _ => .exn (.apiError 503)

/-- All providers fail, with different failure kinds than
`beh_fail_unreach`. -/
def beh_fail_badresp : Behavior :=
  fun pname => if pname = "gemini" then .exn .noCandidates else .exn (.apiError 404)

/-- A decode oracle that always fails (malformed JSON). -/
def decode_none : Decoder := fun _ => none

/-- Payload whose severity is not one of the four tiers. -/
def payload_sev_invalid : AIPayload :=
  { severity := some "SEVERE", diagnosis_suggestions := some ["Dengue fever"],
    recommended_action := some "Visit a clinic", clinical_explanation := some "Assessment",
    red_flags := some ["bleeding"], confidence_score := some (.coercible (mkRat 9 10)) }

/-- Payload whose confidence value is not float-coercible. -/
def payload_conf_bad : AIPayload :=
  { severity := some "LOW", diagnosis_suggestions := some ["Cold"],
    recommended_action := some "Rest", clinical_explanation := some "Assessment",
    red_flags := some [], confidence_score := some .notCoercible }

/-- A decode oracle returning the non-coercible-confidence payload. -/
def decode_conf_bad : Decoder := fun _ => some payload_conf_bad

/-- The payload with every field absent. -/
def payload_absent : AIPayload :=
  { severity := none, diagnosis_suggestions := none, recommended_action := none,
    clinical_explanation := none, red_flags := none, confidence_score := none }

/-- Gemini attempts: rate-limited twice, then success. -/
def beh_rate2 : Nat → GeminiAttempt :=
  fun n => if n < 2 then .rateLimited else .ok "recovered"

/-- Gemini attempts: server error on every attempt. -/
def beh_err503 : Nat → GeminiAttempt := fun _ => .httpError 503

/-- Gemini attempts: rate-limited on every attempt. -/
def beh_allrate : Nat → GeminiAttempt := fun _ => .rateLimited

/-- An upload one byte over the 10MB limit. -/
def photo_big : PhotoUpload :=
  { content_type := some "image/jpeg", size := 10 * 1024 * 1024 + 1, valid_image := true }

/-- A small, valid image upload. -/
def photo_ok : PhotoUpload :=
  { content_type := some "image/jpeg", size := 1000, valid_image := true }

/-- A vision decode oracle that always fails (malformed JSON). -/
def decode_vision_none : String → Option VisionPayload := fun _ => none

/-- An upload whose bytes PIL cannot process. -/
def photo_corrupt : PhotoUpload :=
  { content_type := some "image/png", size := 500, valid_image := false }

/-- A decoded vision payload whose confidence value is not
float-coercible. -/
def vision_payload_bad : VisionPayload :=
  { fatigue_indicators := none, fever_indicators := none,
    overall_health_appearance := none, confidence_score := some .notCoercible,
    recommendations := none }

/-- A vision decode oracle returning the non-coercible-confidence
payload. -/
def decode_vision_bad : String → Option VisionPayload := fun _ => some vision_payload_bad

/-! ## Helper lemmas -/

/-- Every defined severity rank is at most 3. -/
theorem severity_rank_le_three (s : String) (r : Nat) (h : severity_rank s = some r) :
    r ≤ 3 := by
  unfold severity_rank at h
  split_ifs at h <;> simp_all <;> omega

/-- The fever override leaves a HIGH or CRITICAL assessment unchanged. -/
theorem fever_override_of_mem (p : PatientData) (a : TriageResponse)
    (hs : a.severity ∈ (["HIGH", "CRITICAL"] : List String)) :
    apply_fever_override p a = a := by
  unfold apply_fever_override
  exact if_neg fun hcon => hcon.2 hs

/-- The fever override escalates when the temperature is ≥104 and the
severity is outside HIGH/CRITICAL. -/
theorem fever_override_fires (p : PatientData) (a : TriageResponse)
    (ht : 104 ≤ p.temperature) (hs : a.severity ∉ (["HIGH", "CRITICAL"] : List String)) :
    apply_fever_override p a =
      { a with severity := "CRITICAL",
               red_flags := a.red_flags ++ ["Dangerously high fever (≥104°F)"] } := by
  unfold apply_fever_override
  exact if_pos ⟨ht, hs⟩

/-- The symptom override leaves a non-LOW assessment unchanged. -/
theorem symptom_override_not_low (p : PatientData) (a : TriageResponse)
    (h : a.severity ≠ "LOW") : apply_symptom_override p a = a := by
  unfold apply_symptom_override
  split_ifs <;> simp_all

/-- After the override stage, a patient at ≥104°F ends at HIGH or
CRITICAL, and at CRITICAL unless the incoming severity was "HIGH". -/
theorem overrides_high_temp (p : PatientData) (a : TriageResponse)
    (ht : 104 ≤ p.temperature) :
    ((safety_overrides p a).severity = "HIGH" ∨ (safety_overrides p a).severity = "CRITICAL") ∧
    (a.severity ≠ "HIGH" → (safety_overrides p a).severity = "CRITICAL") := by
  unfold safety_overrides
  by_cases hs : a.severity ∈ (["HIGH", "CRITICAL"] : List String)
  · rw [fever_override_of_mem p a hs]
    have hsv : a.severity = "HIGH" ∨ a.severity = "CRITICAL" := by simpa using hs
    have hne : a.severity ≠ "LOW" := by rcases hsv with h | h <;> simp [h]
    rw [symptom_override_not_low p a hne]
    exact ⟨hsv, fun hne' => by rcases hsv with h | h
                               · exact absurd h hne'
                               · exact h⟩
  · rw [fever_override_fires p a ht hs,
        symptom_override_not_low p _ (by simp)]
    exact ⟨Or.inr rfl, fun _ => rfl⟩

/-- The classifier's keyword scan over the lowered symptom list equals
the spec's scan over symptoms with lowered comparison. -/
theorem any_contains_lower_comm (K L : List String) :
    (K.any fun k => (L.map py_lower).contains k) =
      (L.any fun s => K.contains (py_lower s)) := by
  rw [Bool.eq_iff_iff]
  simp only [List.any_eq_true, List.elem_iff, List.mem_map]
  aesop

/-- Membership of one keyword in the lowered symptom list equals a
lowered-comparison scan. -/
theorem contains_lower_map (L : List String) (k : String) :
    ((L.map py_lower).contains k) = (L.any fun s => py_lower s = k) := by
  rw [Bool.eq_iff_iff]
  simp only [List.elem_iff, List.mem_map, List.any_eq_true, decide_eq_true_eq]

/-- A guarded loop call is exactly a call under the configuration test. -/
theorem provider_call_eq (cfg : Config) (beh : Behavior) (p : String) :
    provider_call cfg beh p =
      if is_configured cfg p = true then some (beh p) else none := by
  unfold provider_call is_configured
  split_ifs <;> simp_all

/-- The fallback loop scans exactly the configured non-primary providers
in list order, stopping at the first success. -/
theorem fallback_loop_eq (cfg : Config) (beh : Behavior) (l : List String) :
    fallback_loop cfg beh l =
      first_success beh
        (l.filter fun q => q ≠ cfg.ai_provider ∧ is_configured cfg q = true) := by
  induction l with
  | nil => rfl
  | cons p rest ih =>
    simp only [fallback_loop, List.filter_cons]
    by_cases hp : p = cfg.ai_provider
    · simp [hp, ih]
    · rw [provider_call_eq]
      by_cases hc : is_configured cfg p = true
      · rw [if_pos hc]
        have hkeep : (decide (p ≠ cfg.ai_provider ∧ is_configured cfg p = true)) = true := by
          simp [hp, hc]
        rw [hkeep]
        rcases hbp : beh p with t | e <;> simp [hp, ih, first_success, hbp]
      · simp [hp, hc, ih]

/-- The primary dispatch chain attempts the primary exactly when it is a
known, configured provider. -/
theorem try_primary_eq (cfg : Config) (beh : Behavior) :
    try_primary cfg beh =
      if cfg.ai_provider ∈ fallback_providers ∧ is_configured cfg cfg.ai_provider = true then
        (beh cfg.ai_provider, [cfg.ai_provider])
      else (.exn .notConfigured, []) := by
  unfold try_primary is_configured fallback_providers
  by_cases h1 : cfg.ai_provider = "gemini"
  · cases hg : cfg.gemini_key <;> simp [h1, hg]
  · by_cases h2 : cfg.ai_provider = "ollama"
    · simp [h1, h2]
    · by_cases h3 : cfg.ai_provider = "huggingface"
      · cases hh : cfg.huggingface_key <;> simp [h1, h2, h3, hh]
      · by_cases h4 : cfg.ai_provider = "openai"
        · cases ho : cfg.openai_client <;> simp [h1, h2, h3, h4, ho]
        · simp [h1, h2, h3, h4]

/-- The orchestration of main.py 760-807 equals the spec-side sequential
first-success scan over `provider_order`. -/
theorem orchestrate_eq_spec (cfg : Config) (beh : Behavior) :
    orchestrate cfg beh = first_success beh (provider_order cfg) := by
  unfold orchestrate provider_order
  rw [try_primary_eq]
  by_cases h : cfg.ai_provider ∈ fallback_providers ∧ is_configured cfg cfg.ai_provider = true
  · rw [if_pos h, if_pos h]
    simp only [List.singleton_append, first_success]
    cases beh cfg.ai_provider <;> simp [fallback_loop_eq]
  · rw [if_neg h, if_neg h]
    simp [fallback_loop_eq]

/-- The trace of a first-success scan is a sublist of the scanned list. -/
theorem first_success_trace_sublist (beh : Behavior) (l : List String) :
    List.Sublist (first_success beh l).2 l := by
  induction l with
  | nil => simp [first_success]
  | cons p rest ih =>
    simp only [first_success]
    cases beh p
    · exact (List.nil_sublist rest).cons₂ p
    · exact List.Sublist.cons₂ p ih

/-- The spec-side provider order never repeats a provider. -/
theorem provider_order_nodup (cfg : Config) : (provider_order cfg).Nodup := by
  unfold provider_order
  have hnd : (fallback_providers.filter
      fun q => q ≠ cfg.ai_provider ∧ is_configured cfg q = true).Nodup :=
    List.Nodup.filter _ (by decide)
  split_ifs with h
  · simp only [List.singleton_append]
    refine List.nodup_cons.mpr ⟨fun hmem => ?_, hnd⟩
    have := (List.mem_filter.mp hmem).2
    simp at this
  · simpa using hnd

/-! ## Claim theorems -/

/-- C1 (counterexample): at temperature 104.0°F, a provider outcome
reporting severity HIGH yields a final severity of HIGH, not CRITICAL,
so the final severity is not CRITICAL regardless of provider outcome. -/
theorem c1_counterexample :
    104 ≤ patient_hot.temperature ∧
    severity_of (triage_assessment cfg_gemini beh_high decode_high patient_hot) = some "HIGH" ∧
    severity_of (triage_assessment cfg_gemini beh_high decode_high patient_hot) ≠
      some "CRITICAL" := by
  refine ⟨by decide, by decide, by decide⟩

/-- C1 (amended): for every PatientInput with temperature ≥ 104.0°F,
the Assessment finally returned by the triage operation has severity
HIGH or CRITICAL, and has severity CRITICAL whenever the pre-override
assessment's severity is not HIGH, regardless of provider outcome. -/
theorem c1_high_temp_severity :
    ∀ (cfg : Config) (beh : Behavior) (decode : Decoder) (p : PatientData),
      104 ≤ p.temperature →
      ∃ a, triage_assessment cfg beh decode p = .ok a ∧
        (a.severity = "HIGH" ∨ a.severity = "CRITICAL") ∧
        ((get_ai_triage_assessment cfg beh decode p).severity ≠ "HIGH" →
          a.severity = "CRITICAL") := by
  intro cfg beh decode p ht
  obtain ⟨h1, h2⟩ := overrides_high_temp p (get_ai_triage_assessment cfg beh decode p) ht
  exact ⟨_, rfl, h1, h2⟩

/-- C1 witness: the amended theorem at a concrete high-fever patient
with all providers failing. -/
theorem c1_high_temp_severity_witness :
    104 ≤ patient_hot.temperature ∧
    ∃ a, triage_assessment cfg_gemini beh_fail_unreach decode_none patient_hot = .ok a ∧
      (a.severity = "HIGH" ∨ a.severity = "CRITICAL") ∧
      ((get_ai_triage_assessment cfg_gemini beh_fail_unreach decode_none
          patient_hot).severity ≠ "HIGH" → a.severity = "CRITICAL") :=
  ⟨by decide,
   c1_high_temp_severity cfg_gemini beh_fail_unreach decode_none patient_hot (by decide)⟩

/-- C2: the safety-override stage is applied to every produced
assessment before return; at ≥104°F with severity outside HIGH/CRITICAL
it forces CRITICAL and appends the literal red flag; with a critical
symptom and current severity LOW it raises severity to MEDIUM with no
red flag appended; and a critical symptom with pre-override severity
LOW yields post-override severity at least MEDIUM. -/
theorem c2_safety_override_stage :
    ∀ (cfg : Config) (beh : Behavior) (decode : Decoder) (p : PatientData)
      (a : TriageResponse),
      triage_assessment cfg beh decode p =
        .ok (safety_overrides p (get_ai_triage_assessment cfg beh decode p)) ∧
      (104 ≤ p.temperature → a.severity ∉ (["HIGH", "CRITICAL"] : List String) →
        (safety_overrides p a).severity = "CRITICAL" ∧
        (safety_overrides p a).red_flags =
          a.red_flags ++ ["Dangerously high fever (≥104°F)"]) ∧
      (has_critical_symptom p = true → (apply_fever_override p a).severity = "LOW" →
        safety_overrides p a = { apply_fever_override p a with severity := "MEDIUM" }) ∧
      (has_critical_symptom p = true → a.severity = "LOW" →
        ∃ r, severity_rank (safety_overrides p a).severity = some r ∧ 1 ≤ r) := by
  intro cfg beh decode p a
  refine ⟨rfl, ?_, ?_, ?_⟩
  · intro ht hs
    unfold safety_overrides
    rw [fever_override_fires p a ht hs, symptom_override_not_low p _ (by simp)]
    exact ⟨rfl, rfl⟩
  · intro hc hl
    unfold safety_overrides apply_symptom_override
    rw [if_pos hc, if_pos hl]
  · intro hc hl
    by_cases ht : 104 ≤ p.temperature
    · have hs : a.severity ∉ (["HIGH", "CRITICAL"] : List String) := by simp [hl]
      unfold safety_overrides
      rw [fever_override_fires p a ht hs, symptom_override_not_low p _ (by simp)]
      exact ⟨3, rfl, by omega⟩
    · have hfo : apply_fever_override p a = a := by
        unfold apply_fever_override
        exact if_neg fun hcon => ht hcon.1
      unfold safety_overrides
      rw [hfo]
      unfold apply_symptom_override
      rw [if_pos hc, if_pos hl]
      exact ⟨1, rfl, le_refl 1⟩

/-- C2 witness: the override stage at concrete inputs — a MEDIUM
assessment at 104.0°F is forced to CRITICAL with the red flag appended,
and a LOW assessment with symptom "Chest Pain" is raised to MEDIUM. -/
theorem c2_safety_override_stage_witness :
    ((safety_overrides patient_hot a_med).severity = "CRITICAL" ∧
     (safety_overrides patient_hot a_med).red_flags =
       a_med.red_flags ++ ["Dangerously high fever (≥104°F)"]) ∧
    safety_overrides p_exact a_low = { apply_fever_override p_exact a_low with severity := "MEDIUM" } ∧
    (∃ r, severity_rank (safety_overrides p_exact a_low).severity = some r ∧ 1 ≤ r) :=
  ⟨(c2_safety_override_stage cfg_gemini beh_fail_unreach decode_none patient_hot
      a_med).2.1 (by decide) (by decide),
   (c2_safety_override_stage cfg_gemini beh_fail_unreach decode_none p_exact
      a_low).2.2.1 (by decide) (by decide),
   (c2_safety_override_stage cfg_gemini beh_fail_unreach decode_none p_exact
      a_low).2.2.2 (by decide) (by decide)⟩

/-- C3: the rule-based fallback classifier is deterministic, implements
the spec's top-down first-match decision table for severity, assigns
confidence 0.6, gives each severity branch a fixed (diagnoses, action,
red_flags) tuple, and on the scenario (103.0°F, age 20, three symptoms)
yields HIGH with "Possible bacterial infection" among the diagnoses. -/
theorem c3_rule_based_classifier :
    (∀ p : PatientData,
        (get_fallback_response p).severity = spec_rule_severity p ∧
        (get_fallback_response p).confidence_score = mkRat 6 10) ∧
    (∀ p q : PatientData, p = q → get_fallback_response p = get_fallback_response q) ∧
    (∀ p q : PatientData,
        (get_fallback_response p).severity = (get_fallback_response q).severity →
        (get_fallback_response p).diagnosis_suggestions =
          (get_fallback_response q).diagnosis_suggestions ∧
        (get_fallback_response p).recommended_action =
          (get_fallback_response q).recommended_action ∧
        (get_fallback_response p).red_flags = (get_fallback_response q).red_flags) ∧
    ((get_fallback_response p3_scenario).severity = "HIGH" ∧
     "Possible bacterial infection" ∈ (get_fallback_response p3_scenario).diagnosis_suggestions ∧
     (get_fallback_response p3_scenario).confidence_score = mkRat 6 10) := by
  refine ⟨?_, ?_, ?_, by decide, by decide, by decide⟩
  · intro p
    have hcond := any_contains_lower_comm critical_symptoms_rule p.symptoms
    have hrapid := contains_lower_map p.symptoms "rapid heartbeat"
    constructor
    · simp only [get_fallback_response, spec_rule_severity, hcond, hrapid, List.length_map]
      split_ifs <;> first | rfl | tauto
    · simp only [get_fallback_response]
      split_ifs <;> rfl
  · intro p q h
    rw [h]
  · intro p q h
    simp only [get_fallback_response] at h ⊢
    split_ifs at h ⊢ <;> simp_all

/-- C3 witness: determinism and the fixed-tuple property instantiated at
the scenario patient. -/
theorem c3_rule_based_classifier_witness :
    get_fallback_response p3_scenario = get_fallback_response p3_scenario ∧
    ((get_fallback_response p3_scenario).diagnosis_suggestions =
       (get_fallback_response p3_scenario).diagnosis_suggestions ∧
     (get_fallback_response p3_scenario).recommended_action =
       (get_fallback_response p3_scenario).recommended_action ∧
     (get_fallback_response p3_scenario).red_flags =
       (get_fallback_response p3_scenario).red_flags) :=
  ⟨c3_rule_based_classifier.2.1 p3_scenario p3_scenario rfl,
   c3_rule_based_classifier.2.2.1 p3_scenario p3_scenario rfl⟩

/-- C7: through the override stage, severity is monotonically
non-decreasing in the order LOW < MEDIUM < HIGH < CRITICAL, and the
red-flag list on entry is a prefix of the red-flag list on exit (flags
are appended, never removed). -/
theorem c7_override_monotone :
    ∀ (p : PatientData) (a : TriageResponse),
      (∀ r, severity_rank a.severity = some r →
        ∃ rr, severity_rank (safety_overrides p a).severity = some rr ∧ r ≤ rr) ∧
      a.red_flags <+: (safety_overrides p a).red_flags := by
  intro p a
  constructor
  · intro r hr
    by_cases hs : a.severity ∈ (["HIGH", "CRITICAL"] : List String)
    · have hne : a.severity ≠ "LOW" := by
        rcases (by simpa using hs : a.severity = "HIGH" ∨ a.severity = "CRITICAL") with h | h <;>
          simp [h]
      unfold safety_overrides
      rw [fever_override_of_mem p a hs, symptom_override_not_low p a hne]
      exact ⟨r, hr, le_refl r⟩
    · by_cases ht : 104 ≤ p.temperature
      · unfold safety_overrides
        rw [fever_override_fires p a ht hs, symptom_override_not_low p _ (by simp)]
        exact ⟨3, rfl, severity_rank_le_three _ _ hr⟩
      · have hfo : apply_fever_override p a = a := by
          unfold apply_fever_override
          exact if_neg fun hcon => ht hcon.1
        unfold safety_overrides
        rw [hfo]
        unfold apply_symptom_override
        split_ifs with h1 h2
        · refine ⟨1, rfl, ?_⟩
          rw [h2] at hr
          unfold severity_rank at hr
          simp at hr
          omega
        · exact ⟨r, hr, le_refl r⟩
        · exact ⟨r, hr, le_refl r⟩
  · by_cases hcond : 104 ≤ p.temperature ∧ a.severity ∉ (["HIGH", "CRITICAL"] : List String)
    · unfold safety_overrides
      rw [fever_override_fires p a hcond.1 hcond.2, symptom_override_not_low p _ (by simp)]
      exact List.prefix_append _ _
    · have hfo : apply_fever_override p a = a := by
        unfold apply_fever_override
        exact if_neg hcond
      unfold safety_overrides
      rw [hfo]
      unfold apply_symptom_override
      split_ifs <;> exact List.prefix_refl _

/-- C7 witness: monotonicity and red-flag preservation at a concrete
MEDIUM assessment of a 104.0°F patient. -/
theorem c7_override_monotone_witness :
    (∃ rr, severity_rank (safety_overrides patient_hot a_med).severity = some rr ∧ 1 ≤ rr) ∧
    a_med.red_flags <+: (safety_overrides patient_hot a_med).red_flags :=
  ⟨(c7_override_monotone patient_hot a_med).1 1 rfl,
   (c7_override_monotone patient_hot a_med).2⟩

/-- C4 (code_bug evidence): with rate limiting on the first two attempts
and success on the third, exactly 3 attempts occur, but the backoff
delays are 2s and 3s — `(2 ** attempt) + 1` yields 2, 3, 5 — so the
elapsed backoff before the third attempt is 5s, not the ≥ 2s + 5s the
code's own comment ("2, 5, 9 seconds") documents; any non-rate-limit
failure propagates on the first attempt, and three rate-limited attempts
raise a terminal failure. -/
theorem c4_retry_backoff_trace :
    (call_gemini_retry beh_rate2).attempts = 3 ∧
    (call_gemini_retry beh_rate2).result = .ok "recovered" ∧
    (call_gemini_retry beh_rate2).backoff_wait = wait_time 0 + wait_time 1 ∧
    wait_time 0 = 2 ∧ wait_time 1 = 3 ∧ wait_time 2 = 5 ∧
    ¬ (2 + 5 ≤ (call_gemini_retry beh_rate2).backoff_wait) ∧
    (call_gemini_retry beh_err503).attempts = 1 ∧
    (call_gemini_retry beh_err503).result = .error (.apiError 503) ∧
    (call_gemini_retry beh_allrate).result = .error .rateLimitExhausted ∧
    (call_gemini_retry beh_allrate).attempts = 3 :=
  ⟨rfl, rfl, rfl, rfl, rfl, rfl, by decide, rfl, rfl, rfl, rfl⟩

/-- C5 (counterexample): a decoded payload whose severity is present but
not one of the four tiers passes through unchanged instead of defaulting
to MEDIUM, and a non-float-coercible confidence makes extraction fail
(a field-level defect), contrary to the claim. -/
theorem c5_counterexample :
    severity_of (extract_triage payload_sev_invalid) = some "SEVERE" ∧
    severity_of (extract_triage payload_sev_invalid) ≠ some "MEDIUM" ∧
    extract_triage payload_conf_bad = .error .valueError := by
  refine ⟨by decide, by decide, rfl⟩

/-- C5 (amended): on a successfully decoded payload, the extractor
defaults each field only when it is absent (severity → MEDIUM,
diagnoses → ["Unable to determine"], action, explanation, red_flags →
[]); confidence is float-coerced with default 0.7 when absent, and a
non-numeric or out-of-[0,1] confidence makes extraction fail (leading to
the rule-based fallback) instead of being defaulted or clamped. -/
theorem c5_extractor_defaults :
    ∀ ai : AIPayload,
      (∀ q : Rat, ai.confidence_score = some (.coercible q) → 0 ≤ q → q ≤ 1 →
        extract_triage ai = .ok
          { severity := ai.severity.getD "MEDIUM",
            diagnosis_suggestions := ai.diagnosis_suggestions.getD ["Unable to determine"],
            recommended_action := ai.recommended_action.getD "Consult healthcare provider",
            clinical_explanation := ai.clinical_explanation.getD "Assessment completed",
            red_flags := ai.red_flags.getD [],
            confidence_score := q }) ∧
      (ai.confidence_score = none →
        extract_triage ai = .ok
          { severity := ai.severity.getD "MEDIUM",
            diagnosis_suggestions := ai.diagnosis_suggestions.getD ["Unable to determine"],
            recommended_action := ai.recommended_action.getD "Consult healthcare provider",
            clinical_explanation := ai.clinical_explanation.getD "Assessment completed",
            red_flags := ai.red_flags.getD [],
            confidence_score := mkRat 7 10 }) ∧
      (ai.confidence_score = some .notCoercible → extract_triage ai = .error .valueError) ∧
      (∀ q : Rat, ai.confidence_score = some (.coercible q) → ¬ (0 ≤ q ∧ q ≤ 1) →
        extract_triage ai = .error .validationError) := by
  intro ai
  refine ⟨?_, ?_, ?_, ?_⟩
  · intro q hq h0 h1
    unfold extract_triage
    rw [hq]
    simp only [float_of_conf]
    rw [if_pos ⟨h0, h1⟩]
  · intro h
    unfold extract_triage
    rw [h]
    simp only [float_of_conf]
    rw [if_pos (by constructor <;> decide)]
  · intro h
    unfold extract_triage
    rw [h]
    rfl
  · intro q hq hno
    unfold extract_triage
    rw [hq]
    simp only [float_of_conf]
    rw [if_neg hno]

/-- C5 witness: the amended theorem at the all-absent payload and at the
non-coercible-confidence payload. -/
theorem c5_extractor_defaults_witness :
    extract_triage payload_absent = .ok
      { severity := payload_absent.severity.getD "MEDIUM",
        diagnosis_suggestions := payload_absent.diagnosis_suggestions.getD ["Unable to determine"],
        recommended_action := payload_absent.recommended_action.getD "Consult healthcare provider",
        clinical_explanation := payload_absent.clinical_explanation.getD "Assessment completed",
        red_flags := payload_absent.red_flags.getD [],
        confidence_score := mkRat 7 10 } ∧
    extract_triage payload_conf_bad = .error .valueError :=
  ⟨(c5_extractor_defaults payload_absent).2.1 rfl,
   (c5_extractor_defaults payload_conf_bad).2.2.1 rfl⟩

/-- C6 (counterexample): when every configured provider fails, the
result is the rule-based fallback assessment, identical for different
per-provider failure kinds — no aggregate failure enumerating each
provider's last failure kind is returned. -/
theorem c6_counterexample :
    (orchestrate cfg_gemini beh_fail_unreach).1 = none ∧
    (orchestrate cfg_gemini beh_fail_badresp).1 = none ∧
    get_ai_triage_assessment cfg_gemini beh_fail_unreach decode_none p_mild =
      get_fallback_response p_mild ∧
    get_ai_triage_assessment cfg_gemini beh_fail_badresp decode_none p_mild =
      get_fallback_response p_mild ∧
    get_ai_triage_assessment cfg_gemini beh_fail_unreach decode_none p_mild =
      get_ai_triage_assessment cfg_gemini beh_fail_badresp decode_none p_mild :=
  ⟨rfl, rfl, rfl, rfl, rfl⟩

/-- C6 (amended): providers are attempted strictly sequentially — the
configured primary first, then the remaining providers in the fixed
canonical order, skipping unconfigured ones — stopping at the first
success; each provider is attempted at most once per request; with
provider A failing (no retry) and provider B succeeding, the result is
B's output after exactly one attempt of each; and when every configured
provider fails, the rule-based fallback assessment is returned instead
of an aggregate failure report. -/
theorem c6_provider_fallback :
    (∀ (cfg : Config) (beh : Behavior),
        orchestrate cfg beh = first_success beh (provider_order cfg)) ∧
    (∀ (cfg : Config) (beh : Behavior) (pname : String),
        ((orchestrate cfg beh).2).count pname ≤ 1) ∧
    orchestrate cfg_gemini beh_ab = (some "provider B output", ["gemini", "ollama"]) ∧
    (∀ (cfg : Config) (beh : Behavior) (decode : Decoder) (p : PatientData),
        (orchestrate cfg beh).1 = none →
        get_ai_triage_assessment cfg beh decode p = get_fallback_response p) := by
  refine ⟨fun cfg beh => orchestrate_eq_spec cfg beh, ?_, rfl, ?_⟩
  · intro cfg beh pname
    rw [orchestrate_eq_spec]
    calc (first_success beh (provider_order cfg)).2.count pname
        ≤ (provider_order cfg).count pname :=
          (first_success_trace_sublist beh (provider_order cfg)).count_le pname
      _ ≤ 1 := List.nodup_iff_count_le_one.mp (provider_order_nodup cfg) pname
  · intro cfg beh decode p h
    unfold get_ai_triage_assessment get_ai_triage_body
    rw [h]

/-- C6 witness: the refinement, the at-most-once bound, and the all-fail
fallback at concrete configurations. -/
theorem c6_provider_fallback_witness :
    orchestrate cfg_gemini beh_fail_unreach =
      first_success beh_fail_unreach (provider_order cfg_gemini) ∧
    ((orchestrate cfg_gemini beh_ab).2).count "gemini" ≤ 1 ∧
    get_ai_triage_assessment cfg_gemini beh_fail_unreach decode_none p_mild =
      get_fallback_response p_mild :=
  ⟨c6_provider_fallback.1 cfg_gemini beh_fail_unreach,
   c6_provider_fallback.2.1 cfg_gemini beh_ab "gemini",
   c6_provider_fallback.2.2.2 cfg_gemini beh_fail_unreach decode_none p_mild rfl⟩

/-- C8: the triage operation never raises: for every valid PatientInput
and every provider behaviour it returns an Assessment, and any exception
escaping the provider/extraction stage is converted to the rule-based
fallback (then overridden) rather than propagated. -/
theorem c8_triage_never_raises :
    ∀ (cfg : Config) (beh : Behavior) (decode : Decoder) (p : PatientData),
      p.valid →
      (∃ a, triage_assessment cfg beh decode p = .ok a) ∧
      (∀ e, get_ai_triage_body cfg beh decode p = .error e →
        triage_assessment cfg beh decode p =
          .ok (safety_overrides p (get_fallback_response p))) := by
  intro cfg beh decode p _
  refine ⟨⟨_, rfl⟩, ?_⟩
  intro e he
  unfold triage_assessment triage_body get_ai_triage_assessment
  rw [he]

/-- C8 witness: a valid patient with a provider behaviour whose
extraction raises (non-coercible confidence). -/
theorem c8_triage_never_raises_witness :
    PatientData.valid p_mild ∧
    (∃ a, triage_assessment cfg_gemini beh_high decode_conf_bad p_mild = .ok a) ∧
    (∀ e, get_ai_triage_body cfg_gemini beh_high decode_conf_bad p_mild = .error e →
      triage_assessment cfg_gemini beh_high decode_conf_bad p_mild =
        .ok (safety_overrides p_mild (get_fallback_response p_mild))) :=
  ⟨by decide, c8_triage_never_raises cfg_gemini beh_high decode_conf_bad p_mild (by decide)⟩

/-- C9 (counterexample): an upload one byte over 10MB, and an
unconfigured vision provider, make the appearance analysis raise HTTP
errors instead of returning a structured "could not analyze" result. -/
theorem c9_counterexample :
    analyze_photo cfg_gemini photo_big (.ok "") decode_vision_none =
      .error (.httpException 400 "File too large (max 10MB)") ∧
    analyze_photo cfg_nokey photo_ok (.ok "") decode_vision_none =
      .error (.httpException 500 "Photo analysis service not configured") :=
  ⟨rfl, rfl⟩

/-- C9 (amended): the appearance analysis returns the fixed "could not
analyze" payload exactly when the vision model's output fails JSON
decoding; an unconfigured provider, non-image data, an oversized file,
an invalid image, a failing vision call, or a field
coercion/validation failure of the decoded payload instead raise HTTP
errors (400/500). -/
theorem c9_photo_analysis_errors :
    ∀ (cfg : Config) (photo : PhotoUpload) (vision : CallResult)
      (decode : String → Option VisionPayload),
      (cfg.gemini_key = false →
        analyze_photo cfg photo vision decode =
          .error (.httpException 500 "Photo analysis service not configured")) ∧
      (cfg.gemini_key = true → photo_is_image photo = false →
        analyze_photo cfg photo vision decode =
          .error (.httpException 400 "File must be an image")) ∧
      (cfg.gemini_key = true → photo_is_image photo = true →
        10 * 1024 * 1024 < photo.size →
        analyze_photo cfg photo vision decode =
          .error (.httpException 400 "File too large (max 10MB)")) ∧
      (∀ t, cfg.gemini_key = true → photo_is_image photo = true →
        photo.size ≤ 10 * 1024 * 1024 → photo.valid_image = true →
        vision = .ok t → decode (clean_response t) = none →
        analyze_photo cfg photo vision decode = .ok photo_fallback_payload) ∧
      (∀ e, cfg.gemini_key = true → photo_is_image photo = true →
        photo.size ≤ 10 * 1024 * 1024 → photo.valid_image = true →
        vision = .exn e →
        analyze_photo cfg photo vision decode =
          .error (.httpException 500 "Photo analysis failed")) ∧
      (cfg.gemini_key = true → photo_is_image photo = true →
        photo.size ≤ 10 * 1024 * 1024 → photo.valid_image = false →
        analyze_photo cfg photo vision decode =
          .error (.httpException 400 "Invalid image file")) ∧
      (∀ t v e, cfg.gemini_key = true → photo_is_image photo = true →
        photo.size ≤ 10 * 1024 * 1024 → photo.valid_image = true →
        vision = .ok t → decode (clean_response t) = some v →
        extract_facial v = .error e →
        analyze_photo cfg photo vision decode =
          .error (.httpException 500 "Photo analysis failed")) := by
  intro cfg photo vision decode
  refine ⟨?_, ?_, ?_, ?_, ?_, ?_, ?_⟩
  · intro h
    unfold analyze_photo
    rw [if_pos h]
  · intro hk hi
    unfold analyze_photo
    rw [if_neg (by simp [hk]), if_pos hi]
  · intro hk hi hs
    unfold analyze_photo
    rw [if_neg (by simp [hk]), if_neg (by simp [hi]), if_pos hs]
  · intro t hk hi hs hv hvis hdec
    unfold analyze_photo
    rw [if_neg (by simp [hk]), if_neg (by simp [hi]), if_neg (by omega),
      if_neg (by simp [hv]), hvis]
    simp only [hdec]
  · intro e hk hi hs hv hvis
    unfold analyze_photo
    rw [if_neg (by simp [hk]), if_neg (by simp [hi]), if_neg (by omega),
      if_neg (by simp [hv]), hvis]
  · intro hk hi hs hv
    unfold analyze_photo
    rw [if_neg (by simp [hk]), if_neg (by simp [hi]), if_neg (by omega), if_pos hv]
  · intro t v e hk hi hs hv hvis hdec hext
    unfold analyze_photo
    rw [if_neg (by simp [hk]), if_neg (by simp [hi]), if_neg (by omega),
      if_neg (by simp [hv]), hvis]
    simp only [hdec, hext]

/-- C9 witness: the amended theorem at a missing credential, an
unparsable vision output, an unprocessable image, and a decoded payload
whose confidence is not float-coercible. -/
theorem c9_photo_analysis_errors_witness :
    analyze_photo cfg_nokey photo_ok (.ok "") decode_vision_none =
      .error (.httpException 500 "Photo analysis service not configured") ∧
    analyze_photo cfg_gemini photo_ok (.ok "not json") decode_vision_none =
      .ok photo_fallback_payload ∧
    analyze_photo cfg_gemini photo_corrupt (.ok "") decode_vision_none =
      .error (.httpException 400 "Invalid image file") ∧
    analyze_photo cfg_gemini photo_ok (.ok "odd payload") decode_vision_bad =
      .error (.httpException 500 "Photo analysis failed") :=
  ⟨(c9_photo_analysis_errors cfg_nokey photo_ok (.ok "") decode_vision_none).1 rfl,
   (c9_photo_analysis_errors cfg_gemini photo_ok (.ok "not json")
      decode_vision_none).2.2.2.1 "not json" rfl rfl (by decide) rfl rfl rfl,
   (c9_photo_analysis_errors cfg_gemini photo_corrupt (.ok "")
      decode_vision_none).2.2.2.2.2.1 rfl rfl (by decide) rfl,
   (c9_photo_analysis_errors cfg_gemini photo_ok (.ok "odd payload")
      decode_vision_bad).2.2.2.2.2.2 "odd payload" vision_payload_bad .valueError
      rfl rfl (by decide) rfl rfl rfl rfl⟩

/-- C10: critical-symptom matching is exact whole-string equality after
lowercasing, in both the rule-based classifier and the safety override:
"severe chest pain" (substring only) triggers neither the CRITICAL
branch nor the LOW→MEDIUM upgrade, while "Chest Pain" (exact up to case)
triggers both. -/
theorem c10_exact_symptom_matching :
    (get_fallback_response p_substring).severity = "LOW" ∧
    (get_fallback_response p_exact).severity = "CRITICAL" ∧
    has_critical_symptom p_substring = false ∧
    has_critical_symptom p_exact = true ∧
    (safety_overrides p_substring a_low).severity = "LOW" ∧
    (safety_overrides p_exact a_low).severity = "MEDIUM" :=
  ⟨rfl, rfl, rfl, rfl, rfl, rfl⟩

end FeverTriage
